import Mathlib

/-
Verification of the data pipeline of the Zomato Bengaluru analysis app
(src/streamlit_app/app.py): field parsers, price-category derivation,
dataset loader, filter engine, correlation, and search.

Modelling conventions:
  * a pandas cell is `Option String` (`none` = the NaN placed by read_csv
    in a blank cell);
  * a Python float value is idealised as `Rat`; the float NaN is `none`
    in an `Option Rat` (pandas treats NaN as the missing sentinel);
  * Python `float(s)` is modelled by `pyFloat`, covering the subset of
    Python's accepted forms that the pipeline's data exercises: optional
    sign, decimal digits with an optional fractional part, and the
    literal "nan" (case-insensitive); exponents, "inf" and underscore
    separators are outside the modelled subset and map to a parse error.
-/

namespace Zomato

/-- Numeric value of a string of decimal digits. -/
def natOfDigits (s : String) : Nat :=
  s.data.foldl (fun n c => 10 * n + (c.toNat - 48)) 0

/-- True when every character of the string is a decimal digit. -/
def allDigits (s : String) : Bool :=
  s.data.all (fun c => c.isDigit)

/-- Unsigned decimal literal: digits, or digits '.' digits with at least
one digit overall, as accepted by Python float for sign-free input. -/
def parseUnsignedDecimal (s : String) : Option Rat :=
  match s.splitOn "." with
  | [a] => if !a.isEmpty && allDigits a then some (natOfDigits a : Rat) else none
  | [a, b] =>
      if (!a.isEmpty || !b.isEmpty) && allDigits a && allDigits b then
        some ((natOfDigits a : Rat) + (natOfDigits b : Rat) / (10 : Rat) ^ b.length)
      else none
  | _ => none

/-- Python float(s) on the modelled subset: outer none is a ValueError,
some none is the float NaN (from the literal "nan"), some (some q) is a
finite value. Python float strips surrounding whitespace itself. -/
def pyFloat (s : String) : Option (Option Rat) :=
  let t := s.trim
  let neg := t.startsWith "-"
  let body := if t.startsWith "-" || t.startsWith "+" then t.drop 1 else t
  if body.toLower = "nan" then some none
  else
    match parseUnsignedDecimal body with
    | some q => some (some (if neg then -q else q))
    | none => none

/-- Text before the first '/' of the string, the whole string when it has
no '/', as in Python str.split('/')[0]. -/
def splitSlashHead (s : String) : String :=
  (s.splitOn "/").headD s

/-- Rating parser of load_data: NaN, "NEW" and "-" give NaN; otherwise
float(str(rate).split('/')[0].strip()), any exception giving NaN. A
parsed float NaN (input "nan") is the missing value as well. -/
def clean_rate (rate : Option String) : Option Rat :=
  match rate with
  | none => none
  | some s =>
      if s = "NEW" ∨ s = "-" then none
      else Option.join (pyFloat (splitSlashHead s).trim)

/-- Cost parser of load_data: NaN gives NaN; otherwise
float(str(cost).replace(',', '').strip()), any exception giving NaN. -/
def clean_cost (cost : Option String) : Option Rat :=
  match cost with
  | none => none
  | some s => Option.join (pyFloat ((s.replace "," "").trim))

/-- Model of pd.to_numeric(col, errors='coerce') on one cell: numeric
text parses, anything else (and NaN) coerces to NaN. -/
def pyToNumericCoerce (cell : Option String) : Option Rat :=
  cell.bind (fun s => Option.join (pyFloat s))

/-- Price-category derivation of load_data: missing cost is 'Inconnu',
then half-open bands at 300, 700, 1500. -/
def categorize_price (cost : Option Rat) : String :=
  match cost with
  | none => "Inconnu"
  | some c =>
      if c < 300 then "Économique"
      else if c < 700 then "Modéré"
      else if c < 1500 then "Élevé"
      else "Luxe"

/-- One row of the normalized table, the row-wise view of the DataFrame
the app filters and aggregates (columns name, location, listed_in(city),
rest_type, cuisines, rate, approx_cost(for two people), votes,
price_category). -/
structure Record where
  name : Option String
  location : Option String
  listedCity : Option String
  restType : Option String
  cuisines : Option String
  rate : Option Rat
  cost : Option Rat
  votes : Option Rat
  price_category : String
deriving DecidableEq

/-- Raw source table as read_csv yields it, column-wise; a field is none
when that column is absent from the CSV, and each present column is the
list of its cells (none = blank cell / NaN). -/
structure RawTable where
  name : Option (List (Option String))
  location : Option (List (Option String))
  listedCity : Option (List (Option String))
  restType : Option (List (Option String))
  cuisines : Option (List (Option String))
  rate : Option (List (Option String))
  cost : Option (List (Option String))
  votes : Option (List (Option String))
deriving DecidableEq

/-- The DataFrame load_data returns, column-wise. load_data only rewrites
the rate, cost and votes columns and appends price_category; the text
columns keep whatever shape the source had (including absence). -/
structure DataFrame where
  name : Option (List (Option String))
  location : Option (List (Option String))
  listedCity : Option (List (Option String))
  restType : Option (List (Option String))
  cuisines : Option (List (Option String))
  rate : List (Option Rat)
  cost : List (Option Rat)
  votes : List (Option Rat)
  price_category : List String
deriving DecidableEq

/-- Python errors load_data can let escape: subscripting a DataFrame on an
absent column raises KeyError, which the try/except (it only catches
FileNotFoundError) does not intercept. -/
inductive PyErr where
  | keyError (col : String)
deriving DecidableEq

/-- Loader of app.py lines 41-90. A missing source file raises
FileNotFoundError, which is caught: the function shows an error and
returns None, modelled as .ok none (the SourceUnavailable signal the
caller tests with `if df is not None`). With a source present it cleans
rate, cost and votes in place (KeyError when one of those columns is
absent) and derives price_category from the cleaned cost; the five text
columns are not touched. -/
def loadData (src : Option RawTable) : Except PyErr (Option DataFrame) :=
  match src with
  | none => .ok none
  | some t =>
    match t.rate with
    | none => .error (.keyError "rate")
    | some rateCol =>
      match t.cost with
      | none => .error (.keyError "approx_cost(for two people)")
      | some costCol =>
        match t.votes with
        | none => .error (.keyError "votes")
        | some votesCol =>
          let cleanedCost := costCol.map clean_cost
          .ok (some ⟨t.name, t.location, t.listedCity, t.restType, t.cuisines,
            rateCol.map clean_rate, cleanedCost, votesCol.map pyToNumericCoerce,
            cleanedCost.map categorize_price⟩)

/-- Modelled from the spec: the st.cache_data decorator on load_data is
library code outside this repository; per the spec's memoization contract
the first call computes and stores the returned value and every later
call in the process returns the stored value without re-invoking the
function. The cache is Option (Option DataFrame) (the stored return
value, None included); the Nat in the result counts source reads made by
the call. -/
def cachedLoadData (cache : Option (Option DataFrame)) (src : Option RawTable) :
    Except PyErr (Option DataFrame × Option (Option DataFrame) × Nat) :=
  match cache with
  | some v => .ok (v, some v, 0)
  | none =>
    match loadData src with
    | .error e => .error e
    | .ok v => .ok (v, some v, 1)

/-- Pandas comparison `rate >= min_rating` on one cell: NaN compares
False against every threshold. -/
def pandasGe (r : Option Rat) (m : Rat) : Bool :=
  match r with
  | none => false
  | some v => decide (m ≤ v)

/-- Location predicate of line 137 (`location == selected_location`),
applied only when the selection is not 'Tous' (modelled as none). Pandas
`==` on a NaN cell is False, hence the `= some l` test. -/
def locPred (sel : Option String) (r : Record) : Bool :=
  match sel with
  | none => true
  | some l => decide (r.location = some l)

/-- Price-category predicate of line 139, none meaning 'Tous'. -/
def pricePred (sel : Option String) (r : Record) : Bool :=
  match sel with
  | none => true
  | some p => decide (r.price_category = p)

/-- Line 136-137: df_filtered = df_filtered[df_filtered['location'] ==
selected_location], skipped when 'Tous' is selected. -/
def applyLocFilter (df : List Record) (sel : Option String) : List Record :=
  match sel with
  | none => df
  | some l => df.filter (fun r => decide (r.location = some l))

/-- Line 138-139: the price-category mask, skipped when 'Tous'. -/
def applyPriceFilter (df : List Record) (sel : Option String) : List Record :=
  match sel with
  | none => df
  | some p => df.filter (fun r => decide (r.price_category = p))

/-- Line 140: df_filtered = df_filtered[df_filtered['rate'] >= min_rating],
applied unconditionally. -/
def applyMinRating (df : List Record) (m : Rat) : List Record :=
  df.filter (fun r => pandasGe r.rate m)

/-- Lines 135-140 in code order: copy of df, optional location mask,
optional price mask, rating mask. -/
def dfFilteredOf (df : List Record) (lsel psel : Option String) (m : Rat) :
    List Record :=
  applyMinRating (applyPriceFilter (applyLocFilter df lsel) psel) m

/-- Session state around the filter block: the loaded table df and the
derived df_filtered. -/
structure AppState where
  df : List Record
  dfFiltered : List Record
deriving DecidableEq

/-- The filter block as a state transformation: df_filtered is recomputed
from a copy of df (line 135, df.copy()); no statement of the block
rebinds or mutates df. -/
def pipelineStep (s : AppState) (lsel psel : Option String) (m : Rat) : AppState :=
  ⟨s.df, dfFilteredOf s.df lsel psel m⟩

/-- Substring occurrence test on character lists: does p occur
contiguously inside l. -/
def containsSub (p : List Char) : List Char → Bool
  | [] => p.isEmpty
  | c :: t => p.isPrefixOf (c :: t) || containsSub p t

/-- Model of Series.str.contains(pat, case=False, na=False) on one name
cell, for patterns free of regex metacharacters (on those the regex
search performed by pandas coincides with case-insensitive substring
containment); a NaN name yields False (na=False). -/
def pyStrContains (name : Option String) (pat : String) : Bool :=
  match name with
  | none => false
  | some s => containsSub pat.toLower.data s.toLower.data

/-- Lines 420-422: the search mask over the filtered table. -/
def search_results (df : List Record) (q : String) : List Record :=
  df.filter (fun r => pyStrContains r.name q)

/-- Rows of the table where both projections are present, with both
values: the pairwise-complete rows pandas corr uses for one entry. -/
def pairRows (f g : Record → Option Rat) (df : List Record) : List (Rat × Rat) :=
  df.filterMap (fun r =>
    match f r, g r with
    | some a, some b => some (a, b)
    | _, _ => none)

/-- Values of one field over the records where it is present. -/
def presentVals (f : Record → Option Rat) (df : List Record) : List Rat :=
  df.filterMap f

/-- Arithmetic mean of a list of rationals (0 on the empty list, Rat
division by zero being 0). -/
def listMean (l : List Rat) : Rat :=
  l.sum / (l.length : Rat)

/-- Sum of products of deviations from the per-component means, the
numerator-sum of the Pearson formula over the given pairs. -/
def devProdSum (ps : List (Rat × Rat)) : Rat :=
  ((ps.map (fun p => (p.1 - listMean (ps.map Prod.fst)) *
    (p.2 - listMean (ps.map Prod.snd)))).sum)

/-- Sum of squared deviations from the mean. -/
def varSum (l : List Rat) : Rat :=
  ((l.map (fun x => (x - listMean l) ^ 2)).sum)

/-- One entry of DataFrame.corr (pandas nancorr): over the
pairwise-complete rows of the two columns, NaN (none) when either
column's squared-deviation sum is zero (zero divisor, which also covers
no rows and a single row), else the Pearson quotient. -/
noncomputable def corrEntry (f g : Record → Option Rat) (df : List Record) :
    Option ℝ :=
  if varSum ((pairRows f g df).map Prod.fst) = 0 ∨
      varSum ((pairRows f g df).map Prod.snd) = 0 then none
  else
    some ((devProdSum (pairRows f g df) : ℝ) /
      (Real.sqrt ((varSum ((pairRows f g df).map Prod.fst) : Rat) : ℝ) *
        Real.sqrt ((varSum ((pairRows f g df).map Prod.snd) : Rat) : ℝ)))

/-- Column selection of line 331: positions 0, 1, 2 are rate, votes,
approx_cost(for two people). -/
def corrField (i : Fin 3) : Record → Option Rat :=
  if i = 0 then Record.rate else if i = 1 then Record.votes else Record.cost

/-- Line 331: corr_data = df_filtered[['rate', 'votes',
'approx_cost(for two people)']].corr(), as an indexed 3x3 matrix of
optional reals (none = NaN entry). -/
noncomputable def corr_data (df : List Record) (i j : Fin 3) : Option ℝ :=
  corrEntry (corrField i) (corrField j) df

/-- Record with a missing rating, for exercising the rating filter. -/
def mRec : Record :=
  ⟨some "NoRate", some "BTM", none, none, none, none, some 200, some 5, "Économique"⟩

/-- One-record table whose only record has a missing rating. -/
def w1df : List Record := [mRec]

/-- Source table whose location column is absent while the three numeric
columns are present. -/
def t4 : RawTable :=
  ⟨some [some "A"], none, none, none, none,
    some [some "4.1/5"], some [some "300"], some [some "10"]⟩

/-- The DataFrame loadData produces from t4: numeric columns cleaned,
price category derived, text columns exactly as in the source (the
location column still absent, not synthesized). -/
def out4 : DataFrame :=
  ⟨some [some "A"], none, none, none, none,
    [some (41 / 10)], [some 300], [some 10], ["Modéré"]⟩

/-- Record with a present name, for the search engine. -/
def c9rec : Record :=
  ⟨some "Truffles", some "Koramangala", none, none, some "Cafe, American",
    some 4, some 900, some 2000, "Élevé"⟩

/-- One-record table with a present name. -/
def c9df : List Record := [c9rec]

/-- Two records whose ratings are both present and equal (zero variance
in the rate column). -/
def c6r1 : Record := ⟨some "A", none, none, none, none, some 4, none, some 10, "Inconnu"⟩

/-- Second record with the same rating as c6r1. -/
def c6r2 : Record := ⟨some "B", none, none, none, none, some 4, none, some 20, "Inconnu"⟩

/-- Table on which the rate column has zero variance. -/
def c6df : List Record := [c6r1, c6r2]

/-- Record with rating 3 and nothing else. -/
def w6r1 : Record := ⟨none, none, none, none, none, some 3, none, none, "Inconnu"⟩

/-- Record with rating 4 and nothing else. -/
def w6r2 : Record := ⟨none, none, none, none, none, some 4, none, none, "Inconnu"⟩

/-- Table on which the rate column has two distinct present values. -/
def w6df : List Record := [w6r1, w6r2]

/-- C3: the rating parser maps "4.1/5" to 4.1 and each of "NEW", "-",
"", "nan", "abc/5" to missing; sentinels map to missing, otherwise the
text before the first '/' is trimmed and parsed, any parse failure
giving missing (the parser is a total function, never an exception). -/
theorem clean_rate_on_spec_inputs :
    clean_rate (some "4.1/5") = some (41 / 10) ∧
    clean_rate (some "NEW") = none ∧
    clean_rate (some "-") = none ∧
    clean_rate (some "") = none ∧
    clean_rate (some "nan") = none ∧
    clean_rate (some "abc/5") = none := by
  refine ⟨?_, ?_, ?_, ?_, ?_, ?_⟩ <;> with_unfolding_all rfl

/-- C2: categorize_price sends missing cost to 'Inconnu' and otherwise
classifies by the half-open bands [0,300), [300,700), [700,1500),
[1500,inf) with inclusive lower bounds, so 300, 700 and 1500 fall in
the upper band and 299, 699, 1499 in the lower one. -/
theorem categorize_price_bands :
    categorize_price none = "Inconnu" ∧
    (∀ c : Rat, c < 300 → categorize_price (some c) = "Économique") ∧
    (∀ c : Rat, 300 ≤ c → c < 700 → categorize_price (some c) = "Modéré") ∧
    (∀ c : Rat, 700 ≤ c → c < 1500 → categorize_price (some c) = "Élevé") ∧
    (∀ c : Rat, 1500 ≤ c → categorize_price (some c) = "Luxe") ∧
    categorize_price (some 299) = "Économique" ∧
    categorize_price (some 300) = "Modéré" ∧
    categorize_price (some 699) = "Modéré" ∧
    categorize_price (some 700) = "Élevé" ∧
    categorize_price (some 1499) = "Élevé" ∧
    categorize_price (some 1500) = "Luxe" := by
  refine ⟨rfl, ?_, ?_, ?_, ?_, ?_, ?_, ?_, ?_, ?_, ?_⟩
  · intro c h
    simp only [categorize_price]
    rw [if_pos h]
  · intro c h1 h2
    simp only [categorize_price]
    rw [if_neg (not_lt.mpr h1), if_pos h2]
  · intro c h1 h2
    simp only [categorize_price]
    rw [if_neg (not_lt.mpr (by linarith)), if_neg (not_lt.mpr h1), if_pos h2]
  · intro c h1
    simp only [categorize_price]
    rw [if_neg (not_lt.mpr (by linarith)), if_neg (not_lt.mpr (by linarith)),
      if_neg (not_lt.mpr h1)]
  all_goals with_unfolding_all rfl

/-- Witness for C2 at the boundary cost 300: the hypotheses 300 <= 300
and 300 < 700 hold and the category is 'Modéré'. -/
theorem categorize_price_bands_witness :
    (300 : Rat) ≤ 300 ∧ (300 : Rat) < 700 ∧ categorize_price (some 300) = "Modéré" :=
  ⟨le_refl 300, by norm_num, categorize_price_bands.2.2.1 300 (le_refl 300) (by norm_num)⟩

/-- C10: categorize_price is total on all rational costs; every negative
present cost lands in 'Économique' (it satisfies cost < 300), and
'Inconnu' is returned exactly for a missing cost, never for a present
out-of-domain value. -/
theorem categorize_price_negative_total :
    (∀ c : Rat, c < 0 → categorize_price (some c) = "Économique") ∧
    (∀ oc : Option Rat, categorize_price oc = "Inconnu" ↔ oc = none) := by
  constructor
  · intro c h
    simp only [categorize_price]
    rw [if_pos (by linarith : c < 300)]
  · intro oc
    constructor
    · intro h
      match oc with
      | none => rfl
      | some c =>
        exfalso
        simp only [categorize_price] at h
        split_ifs at h <;> exact absurd h (by decide)
    · intro h
      rw [h]
      rfl

/-- Witness for C10 at cost -5: the hypothesis -5 < 0 holds, the
category is 'Économique', and the Inconnu equivalence instantiates. -/
theorem categorize_price_negative_total_witness :
    (-5 : Rat) < 0 ∧ categorize_price (some (-5)) = "Économique" ∧
      (categorize_price (some (-5)) = "Inconnu" ↔ (some (-5) : Option Rat) = none) :=
  ⟨by norm_num, categorize_price_negative_total.1 (-5) (by norm_num),
    categorize_price_negative_total.2 (some (-5))⟩

/-- C1: a record with missing rating survives no filter whose minimum
rating threshold is nonnegative (in particular the default 0.0): every
record of the filtered table has a present rating, and the pandas
comparison `missing >= m` is False. -/
theorem missing_rating_never_passes (df : List Record) (lsel psel : Option String)
    (m : Rat) (h : 0 ≤ m) :
    (∀ r ∈ dfFilteredOf df lsel psel m, r.rate ≠ none) ∧ pandasGe none m = false := by
  refine ⟨?_, rfl⟩
  intro r hr hnone
  have hm : pandasGe r.rate m = true :=
    (List.mem_filter.mp hr).2
  rw [hnone] at hm
  exact Bool.false_ne_true hm

/-- Witness for C1: with the default threshold 0.0 (which is
nonnegative), the missing-rating record is absent from the filtered
table. -/
theorem missing_rating_never_passes_witness :
    (0 : Rat) ≤ 0 ∧ mRec ∉ dfFilteredOf w1df none none 0 :=
  ⟨le_refl 0, fun hmem =>
    (missing_rating_never_passes w1df none none 0 (le_refl 0)).1 mRec hmem rfl⟩

/-- C7: the location mask and the price-category mask commute, and
applying them in sequence equals a single filter by the conjunction of
the two predicates. -/
theorem filter_order_commutes (df : List Record) (lsel psel : Option String) :
    applyPriceFilter (applyLocFilter df lsel) psel
      = applyLocFilter (applyPriceFilter df psel) lsel ∧
    applyPriceFilter (applyLocFilter df lsel) psel
      = df.filter (fun r => locPred lsel r && pricePred psel r) := by
  have key : ∀ (l p : Option String),
      applyPriceFilter (applyLocFilter df l) p
        = df.filter (fun r => locPred l r && pricePred p r) := by
    intro l p
    match l, p with
    | none, none =>
        simp [applyLocFilter, applyPriceFilter, locPred, pricePred]
    | none, some pv =>
        simp [applyLocFilter, applyPriceFilter, locPred, pricePred]
    | some lv, none =>
        simp [applyLocFilter, applyPriceFilter, locPred, pricePred]
    | some lv, some pv =>
        simp only [applyLocFilter, applyPriceFilter, List.filter_filter]
        exact List.filter_congr (fun r _ => by simp [locPred, pricePred, Bool.and_comm])
  constructor
  · rw [key lsel psel]
    have key2 : applyLocFilter (applyPriceFilter df psel) lsel
        = df.filter (fun r => pricePred psel r && locPred lsel r) := by
      match lsel, psel with
      | none, none =>
          simp [applyLocFilter, applyPriceFilter, locPred, pricePred]
      | none, some pv =>
          simp [applyLocFilter, applyPriceFilter, locPred, pricePred]
      | some lv, none =>
          simp [applyLocFilter, applyPriceFilter, locPred, pricePred]
      | some lv, some pv =>
          simp only [applyLocFilter, applyPriceFilter, List.filter_filter]
          exact List.filter_congr (fun r _ => by simp [locPred, pricePred, Bool.and_comm])
    rw [key2]
    exact List.filter_congr (fun r _ => by rw [Bool.and_comm])
  · exact key lsel psel

/-- Every filtered table is a sublist of the table it was filtered
from. -/
theorem dfFilteredOf_sublist (df : List Record) (lsel psel : Option String) (m : Rat) :
    (dfFilteredOf df lsel psel m).Sublist df := by
  have h1 : (applyLocFilter df lsel).Sublist df := by
    match lsel with
    | none => exact List.Sublist.refl df
    | some l => exact List.filter_sublist df
  have h2 : (applyPriceFilter (applyLocFilter df lsel) psel).Sublist (applyLocFilter df lsel) := by
    match psel with
    | none => exact List.Sublist.refl _
    | some p => exact List.filter_sublist _
  exact (List.filter_sublist _).trans (h2.trans h1)

/-- C8: the filter block never touches the loaded table: after the
step, the state's df is exactly the table it held before, and the
filtered view is a sublist of it (records unchanged, only dropped). -/
theorem pipeline_preserves_df (s : AppState) (lsel psel : Option String) (m : Rat) :
    (pipelineStep s lsel psel m).df = s.df ∧
    (pipelineStep s lsel psel m).dfFiltered.Sublist s.df :=
  ⟨rfl, dfFilteredOf_sublist s.df lsel psel m⟩

/-- C4 counterexample: on the source t4, whose location column is
absent, loadData succeeds but the resulting table's location column is
still absent: it is not synthesized as an all-missing column, contrary
to the claim that every record uniformly carries all expected fields. -/
theorem load_data_no_column_synthesis_cex :
    loadData (some t4) = .ok (some out4) ∧ out4.location = none ∧
      out4.location ≠ some [none] := by
  refine ⟨?_, rfl, by decide⟩
  with_unfolding_all rfl

/-- C4 amended: whenever the rate, cost and votes columns are present,
loadData succeeds no matter which expected text columns are absent, and
it passes every text column through unchanged — an absent text column
stays absent in the output rather than being synthesized. -/
theorem load_data_text_passthrough (t : RawTable) (h1 : t.rate ≠ none)
    (h2 : t.cost ≠ none) (h3 : t.votes ≠ none) :
    ∃ d, loadData (some t) = .ok (some d) ∧ d.name = t.name ∧
      d.location = t.location ∧ d.listedCity = t.listedCity ∧
      d.restType = t.restType ∧ d.cuisines = t.cuisines := by
  obtain ⟨rc, hr⟩ := Option.ne_none_iff_exists'.mp h1
  obtain ⟨cc, hc⟩ := Option.ne_none_iff_exists'.mp h2
  obtain ⟨vc, hv⟩ := Option.ne_none_iff_exists'.mp h3
  refine ⟨⟨t.name, t.location, t.listedCity, t.restType, t.cuisines,
    rc.map clean_rate, cc.map clean_cost, vc.map pyToNumericCoerce,
    (cc.map clean_cost).map categorize_price⟩, ?_, rfl, rfl, rfl, rfl, rfl⟩
  simp only [loadData, hr, hc, hv]

/-- Witness for C4 amended at the concrete source t4 (its numeric
columns are present, its location column absent). -/
theorem load_data_text_passthrough_witness :
    t4.rate ≠ none ∧ t4.cost ≠ none ∧ t4.votes ≠ none ∧
      ∃ d, loadData (some t4) = .ok (some d) ∧ d.name = t4.name ∧
        d.location = t4.location ∧ d.listedCity = t4.listedCity ∧
        d.restType = t4.restType ∧ d.cuisines = t4.cuisines :=
  ⟨by decide, by decide, by decide,
    load_data_text_passthrough t4 (by decide) (by decide) (by decide)⟩

/-- C5: loadData signals source unavailability (the caught
FileNotFoundError: an error message plus the None return the caller
halts on) exactly when the source is missing, and in that case no table
at all is produced; on success the memoized wrapper returns the
identical stored table on every later call with no further source
read. -/
theorem load_data_unavailable_and_memoized (src : Option RawTable) :
    (loadData src = .ok none ↔ src = none) ∧
    (∀ v c, cachedLoadData none src = .ok (v, c, 1) →
      cachedLoadData c src = .ok (v, c, 0)) := by
  constructor
  · constructor
    · intro h
      match src with
      | none => rfl
      | some t =>
        exfalso
        simp only [loadData] at h
        rcases hr : t.rate with _ | rateCol <;> rw [hr] at h
        · exact Except.noConfusion h
        · rcases hc : t.cost with _ | costCol <;> rw [hc] at h
          · exact Except.noConfusion h
          · rcases hv : t.votes with _ | votesCol <;> rw [hv] at h
            · exact Except.noConfusion h
            · simp at h
    · intro h
      rw [h]
      rfl
  · intro v c h
    simp only [cachedLoadData] at h ⊢
    rcases hl : loadData src with e | w <;> rw [hl] at h
    · exact Except.noConfusion h
    · have hv : w = v ∧ (some w : Option (Option DataFrame)) = c ∧ (1 : Nat) = 1 := by
        have := Except.ok.inj h
        exact ⟨congrArg Prod.fst this, congrArg (fun p => p.2.1) this,
          congrArg (fun p => p.2.2) this⟩
      rcases hv with ⟨hw, hcc, -⟩
      rw [← hcc, hw]

/-- Witness for C5 on the missing source: the first call returns the
None signal reading the source once, the second call returns the same
stored value with zero reads, and the unavailability equivalence
instantiates. -/
theorem load_data_unavailable_and_memoized_witness :
    cachedLoadData none (none : Option RawTable) = .ok (none, some none, 1) ∧
      cachedLoadData (some none) (none : Option RawTable) = .ok (none, some none, 0) ∧
      (loadData (none : Option RawTable) = .ok none ↔ (none : Option RawTable) = none) :=
  ⟨rfl, (load_data_unavailable_and_memoized none).2 none (some none) rfl,
    (load_data_unavailable_and_memoized none).1⟩

/-- C9 counterexample: on a one-record table whose record has a present
name, the empty query matches the record — the search mask with an
empty pattern keeps every present name, it does not match nothing. -/
theorem search_empty_query_cex :
    search_results c9df "" = c9df ∧ c9df ≠ [] := by
  constructor
  · with_unfolding_all rfl
  · intro h
    exact List.noConfusion h

/-- A list is a prefix of another exactly when the latter extends it. -/
theorem isPrefixOf_iff_append (p l : List Char) :
    p.isPrefixOf l = true ↔ ∃ post, l = p ++ post := by
  induction p generalizing l with
  | nil =>
    simp [List.isPrefixOf]
  | cons a p ih =>
    match l with
    | [] =>
      simp [List.isPrefixOf]
    | b :: t =>
      simp only [List.isPrefixOf, Bool.and_eq_true, beq_iff_eq, ih, List.cons_append,
        List.cons.injEq]
      constructor
      · rintro ⟨rfl, post, rfl⟩
        exact ⟨post, rfl, rfl⟩
      · rintro ⟨post, rfl, rfl⟩
        exact ⟨rfl, post, rfl⟩

/-- The substring test succeeds exactly when the pattern occurs
contiguously in the list. -/
theorem containsSub_iff (p l : List Char) :
    containsSub p l = true ↔ ∃ pre post, l = pre ++ p ++ post := by
  induction l with
  | nil =>
    simp only [containsSub, List.isEmpty_iff]
    constructor
    · rintro rfl
      exact ⟨[], [], rfl⟩
    · rintro ⟨pre, post, h⟩
      rcases List.append_eq_nil.mp h.symm with ⟨h1, h2⟩
      exact (List.append_eq_nil.mp h1).2
  | cons c t ih =>
    simp only [containsSub, Bool.or_eq_true, isPrefixOf_iff_append, ih]
    constructor
    · rintro (⟨post, h⟩ | ⟨pre, post, h⟩)
      · exact ⟨[], post, by simp [h]⟩
      · exact ⟨c :: pre, post, by simp [h]⟩
    · rintro ⟨pre, post, h⟩
      match pre with
      | [] =>
        exact Or.inl ⟨post, by simpa using h⟩
      | d :: pre' =>
        rcases List.cons.inj (by simpa using h) with ⟨rfl, h2⟩
        exact Or.inr ⟨pre', post, by rw [List.append_assoc]; exact h2⟩

/-- C9 amended: search keeps exactly the records whose present name
contains the query as a case-insensitive substring; a missing name
never matches (na=False), and the empty query — never issued by the UI,
which guards with `if search_name:` — matches every record with a
present name rather than nothing. -/
theorem search_results_spec (df : List Record) (q : String) :
    (∀ r, r ∈ search_results df q ↔
      r ∈ df ∧ ∃ s, r.name = some s ∧
        ∃ pre post, s.toLower.data = pre ++ q.toLower.data ++ post) ∧
    (∀ r, r ∈ search_results df "" ↔ r ∈ df ∧ r.name ≠ none) := by
  have hmem : ∀ (q' : String) r, r ∈ search_results df q' ↔
      r ∈ df ∧ ∃ s, r.name = some s ∧
        ∃ pre post, s.toLower.data = pre ++ q'.toLower.data ++ post := by
    intro q' r
    rw [search_results, List.mem_filter]
    refine and_congr_right (fun _ => ?_)
    rcases hn : r.name with _ | s
    · simp [pyStrContains]
    · simp only [pyStrContains, containsSub_iff, Option.some.injEq]
      constructor
      · rintro ⟨pre, post, h⟩
        exact ⟨s, rfl, pre, post, h⟩
      · rintro ⟨s', hs, pre, post, h⟩
        rcases hs with rfl
        exact ⟨pre, post, h⟩
  refine ⟨hmem q, fun r => (hmem "" r).trans (and_congr_right (fun _ => ?_))⟩
  constructor
  · rintro ⟨s, hs, -⟩
    rw [hs]
    exact Option.noConfusion
  · intro h
    obtain ⟨s, hs⟩ := Option.ne_none_iff_exists'.mp h
    have he : "".toLower.data = ([] : List Char) := by with_unfolding_all rfl
    exact ⟨s, hs, [], s.toLower.data, by simp [he]⟩

/-- Witness for C9 amended: the record with a present name belongs to
the result of the empty query over its one-record table. -/
theorem search_results_spec_witness :
    c9rec ∈ search_results c9df "" ∧ c9rec.name ≠ none :=
  ⟨((search_results_spec c9df "").2 c9rec).mpr
    ⟨List.mem_singleton.mpr rfl, by decide⟩, by decide⟩

/-- Pairing a field with itself lists the duplicated present values of
that field. -/
theorem pairRows_self (f : Record → Option Rat) (df : List Record) :
    pairRows f f df = (presentVals f df).map (fun a => (a, a)) := by
  induction df with
  | nil => rfl
  | cons r t ih =>
    rcases hf : f r with _ | a <;>
      simp [pairRows, presentVals, List.filterMap_cons, hf, ih] <;>
      simpa [pairRows, presentVals] using ih

/-- Swapping the two fields swaps every pairwise-complete row. -/
theorem pairRows_swap (f g : Record → Option Rat) (df : List Record) :
    pairRows g f df = (pairRows f g df).map Prod.swap := by
  induction df with
  | nil => rfl
  | cons r t ih =>
    rcases hf : f r with _ | a <;> rcases hg : g r with _ | b <;>
      simp [pairRows, List.filterMap_cons, hf, hg] <;>
      simpa [pairRows] using ih

/-- A sum of squared deviations is nonnegative. -/
theorem varSum_nonneg (l : List Rat) : 0 ≤ varSum l := by
  apply List.sum_nonneg
  intro x hx
  simp only [List.mem_map] at hx
  obtain ⟨y, -, rfl⟩ := hx
  positivity

/-- On duplicated pairs the deviation-product sum is the squared
deviation sum of the underlying values. -/
theorem devProdSum_dup (l : List Rat) :
    devProdSum (l.map (fun a => (a, a))) = varSum l := by
  have hfst : (Prod.fst ∘ fun a : Rat => (a, a)) = fun a : Rat => a := rfl
  have hsnd : (Prod.snd ∘ fun a : Rat => (a, a)) = fun a : Rat => a := rfl
  unfold devProdSum varSum
  simp only [List.map_map, hfst, hsnd, List.map_id']
  congr 1
  congr 1
  funext a
  simp only [Function.comp_apply]
  ring

/-- The deviation-product sum is invariant under swapping the pairs. -/
theorem devProdSum_swap (ps : List (Rat × Rat)) :
    devProdSum (ps.map Prod.swap) = devProdSum ps := by
  have h1 : (Prod.fst ∘ (Prod.swap : Rat × Rat → Rat × Rat)) = Prod.snd := rfl
  have h2 : (Prod.snd ∘ (Prod.swap : Rat × Rat → Rat × Rat)) = Prod.fst := rfl
  unfold devProdSum
  simp only [List.map_map, h1, h2]
  congr 1
  congr 1
  funext p
  simp only [Function.comp_apply, Prod.fst_swap, Prod.snd_swap]
  ring

/-- C6 amended: the correlation matrix of line 331 is symmetric for
every input table; a diagonal entry is exactly 1.0 whenever the field's
squared-deviation sum over its present values is nonzero, and NaN
otherwise; and every entry is a function of the pairwise-complete rows
of its own pair of fields alone, so missingness in the third field
cannot change it. -/
theorem corr_data_props (df : List Record) :
    (∀ i j, corr_data df i j = corr_data df j i) ∧
    (∀ i, varSum (presentVals (corrField i) df) ≠ 0 → corr_data df i i = some 1) ∧
    (∀ (df' : List Record) (i j : Fin 3),
      pairRows (corrField i) (corrField j) df = pairRows (corrField i) (corrField j) df' →
      corr_data df i j = corr_data df' i j) := by
  have h1 : (Prod.fst ∘ (Prod.swap : Rat × Rat → Rat × Rat)) = Prod.snd := rfl
  have h2 : (Prod.snd ∘ (Prod.swap : Rat × Rat → Rat × Rat)) = Prod.fst := rfl
  refine ⟨?_, ?_, ?_⟩
  · intro i j
    unfold corr_data corrEntry
    rw [pairRows_swap (corrField i) (corrField j) df]
    simp only [List.map_map, h1, h2, devProdSum_swap]
    by_cases hc : varSum ((pairRows (corrField i) (corrField j) df).map Prod.fst) = 0 ∨
        varSum ((pairRows (corrField i) (corrField j) df).map Prod.snd) = 0
    · rw [if_pos hc, if_pos (Or.symm hc)]
    · rw [if_neg hc, if_neg (fun hcon => hc (Or.symm hcon))]
      congr 1
      rw [mul_comm]
  · intro i hv
    have hfst : (Prod.fst ∘ fun a : Rat => (a, a)) = fun a : Rat => a := rfl
    have hsnd : (Prod.snd ∘ fun a : Rat => (a, a)) = fun a : Rat => a := rfl
    unfold corr_data corrEntry
    rw [pairRows_self (corrField i) df]
    simp only [List.map_map, hfst, hsnd, List.map_id', devProdSum_dup]
    rw [if_neg (fun hc => hv (hc.elim id id))]
    rw [Real.mul_self_sqrt (by exact_mod_cast varSum_nonneg _)]
    rw [div_self (by exact_mod_cast hv)]
  · intro df' i j h
    unfold corr_data corrEntry
    rw [h]

/-- C6 counterexample: on the table c6df, whose rate column holds two
equal present values (zero variance), the diagonal entry of the
correlation matrix for rate is NaN, not 1.0. -/
theorem corr_data_diagonal_cex :
    corr_data c6df 0 0 = none ∧ corr_data c6df 0 0 ≠ some 1 := by
  have hps : pairRows (corrField 0) (corrField 0) c6df
      = [((4 : Rat), (4 : Rat)), (4, 4)] := by
    with_unfolding_all rfl
  have hv : varSum (([((4 : Rat), (4 : Rat)), (4, 4)]).map Prod.fst) = 0 := by
    norm_num [varSum, listMean]
  have hnone : corr_data c6df 0 0 = none := by
    unfold corr_data corrEntry
    rw [hps, if_pos (Or.inl hv)]
  exact ⟨hnone, by rw [hnone]; exact fun hcon => Option.noConfusion hcon⟩

/-- Witness for C6 amended: on the table w6df the rate column has two
distinct present values, the variance hypothesis holds, and the
diagonal entry is exactly 1. -/
theorem corr_data_props_witness :
    varSum (presentVals (corrField 0) w6df) ≠ 0 ∧ corr_data w6df 0 0 = some 1 := by
  have hpv : presentVals (corrField 0) w6df = [3, 4] := by
    with_unfolding_all rfl
  have hv : varSum (presentVals (corrField 0) w6df) ≠ 0 := by
    rw [hpv]
    norm_num [varSum, listMean]
  exact ⟨hv, (corr_data_props w6df).2.1 0 hv⟩

end Zomato
